import Mathlib

/-!
Shallow embedding of the reservation admission and lifecycle engine of the
Room-Reservation-System Node.js backend.

Sources embedded:
* `src/backend/models/room.js` — reservation schema statics/methods:
  `checkAvailability` (the three-disjunct Mongo `$or` conflict query) and
  `canBeCancelled` (the 2-hour lead-time guard).
* `src/backend/controllers/reservationController.js` — `createReservation`,
  `cancelReservation`, `updateReservationStatus`, `adminCancelReservation`.
* `src/backend/utils/validations.js` — the Joi `createReservationValidation`
  constraints that the controller applies before any business rule.

Times are modelled as `Int` milliseconds since the epoch (JS `Date`
subtraction yields milliseconds).  JS real-number divisions such as
`durationMs / 60000 < 30` are replaced by the exactly equivalent integer
comparisons (`durationMs < 1800000`), since both sides are exact integers.
-/

/-- Reservation status enum from `reservationSchema` (`room.js`):
`['pending', 'confirmed', 'cancelled', 'completed']`. -/
inductive RStatus where
  | pending
  | confirmed
  | cancelled
  | completed
deriving DecidableEq, Repr

/-- `isActive` virtual of the reservation schema:
`['pending', 'confirmed'].includes(this.status)`. -/
def isActiveStatus (s : RStatus) : Bool :=
  s = RStatus.pending || s = RStatus.confirmed

/-- A stored reservation document (the fields of `reservationSchema` the
engine reads; `purpose` is tracked by its trimmed length, which is all the
validation inspects). -/
structure Reservation where
  rid : Nat
  user : Nat
  room : Nat
  startTime : Int
  endTime : Int
  attendees : Nat
  purposeLen : Nat
  status : RStatus
deriving DecidableEq, Repr

/-- A room document (the fields `createReservation` reads). -/
structure Room where
  rmId : Nat
  capacity : Nat
  isActive : Bool
deriving DecidableEq, Repr

/-- The reservation collection plus the id counter standing in for Mongo
object-id assignment. -/
structure Store where
  reservations : List Reservation
  nextId : Nat
deriving DecidableEq, Repr

def emptyStore : Store := ⟨[], 0⟩

/-- The `$or` of `reservationSchema.statics.checkAvailability` (`room.js`
lines 201-208), for one existing reservation `[rs, re)` against the candidate
slot `[s, e)`:
`{ startTime: { $gte: startTime, $lt: endTime } }` OR
`{ endTime: { $gt: startTime, $lte: endTime } }` OR
`{ startTime: { $lte: startTime }, endTime: { $gte: endTime } }`. -/
def overlapOr (rs re s e : Int) : Bool :=
  (rs ≥ s && rs < e) || (re > s && re ≤ e) || (rs ≤ s && re ≥ e)

/-- The half-open overlap predicate of the spec: `[a,b)` and `[c,d)` overlap
iff `a < d AND c < b`.  (Modelled from the spec wording; used only to compare
against `overlapOr`, the query the code actually runs.) -/
def overlaps (a b c d : Int) : Bool :=
  a < d && c < b

/-- One document's match against `conflictConditions` in `checkAvailability`:
same room, status in `{pending, confirmed}`, the `$or` above, and
`_id: { $ne: excludeReservationId }` when an exclusion id is supplied. -/
def conflictMatches (roomId : Nat) (s e : Int) (excludeId : Option Nat)
    (r : Reservation) : Bool :=
  r.room == roomId && isActiveStatus r.status && overlapOr r.startTime r.endTime s e &&
    (match excludeId with
     | none => true
     | some ex => r.rid != ex)

/-- `reservationSchema.statics.checkAvailability`: returns `true` when
`findOne(conflictConditions)` finds nothing. -/
def checkAvailability (resvs : List Reservation) (roomId : Nat) (s e : Int)
    (excludeId : Option Nat) : Bool :=
  !(resvs.any (conflictMatches roomId s e excludeId))

/-- `reservationSchema.methods.canBeCancelled`:
`status === 'confirmed' && (startTime - now) / 3600000 > 2`, the real-number
comparison rewritten exactly as `startTime - now > 7200000`. -/
def canBeCancelled (r : Reservation) (now : Int) : Bool :=
  r.status == RStatus.confirmed && r.startTime - now > 7200000

/-- The request body of a creation call after Joi coercion. -/
structure CreateRequest where
  room : Nat
  startTime : Int
  endTime : Int
  attendees : Nat
  purposeLen : Nat
deriving DecidableEq, Repr

/-- Joi `createReservationValidation` (`validations.js`): `startTime` must be
strictly greater than `now`, `endTime` strictly greater than `startTime`,
`attendees` an integer `≥ 1`, `purpose` a string of trimmed length 5..200. -/
def createRequestValid (now : Int) (req : CreateRequest) : Bool :=
  req.startTime > now && req.endTime > req.startTime && req.attendees ≥ 1 &&
    req.purposeLen ≥ 5 && req.purposeLen ≤ 200

/-- Outcome of `createReservation`, one constructor per distinct rejection
response in the controller plus the success payload. -/
inductive CreateResult where
  | validationError
  | roomNotFound
  | capacityExceeded
  | slotConflict
  | durationTooShort
  | durationTooLong
  | created (r : Reservation)
deriving DecidableEq, Repr

/-- HTTP status the controller sends with each `createReservation` outcome. -/
def createHttpStatus : CreateResult → Nat
  | CreateResult.validationError => 400
  | CreateResult.roomNotFound => 404
  | CreateResult.capacityExceeded => 400
  | CreateResult.slotConflict => 409
  | CreateResult.durationTooShort => 400
  | CreateResult.durationTooLong => 400
  | CreateResult.created _ => 201

/-- `Room.findById`. -/
def findRoom (rooms : List Room) (roomId : Nat) : Option Room :=
  rooms.find? (fun rm => rm.rmId == roomId)

/-- `Reservation.findById`. -/
def findReservation (resvs : List Reservation) (rid : Nat) : Option Reservation :=
  resvs.find? (fun r => r.rid == rid)

/-- Persisting a status change on the document found by id (Mongo updates the
unique `_id` match; modelled as rewriting the first list entry with that id). -/
def setStatusFirst (resvs : List Reservation) (rid : Nat) (st : RStatus) :
    List Reservation :=
  match resvs with
  | [] => []
  | r :: rest =>
    if r.rid == rid then { r with status := st } :: rest
    else r :: setStatusFirst rest rid st

/-- `createReservation` (`reservationController.js` lines 11-97), in the
exact order the controller runs its checks: Joi validation, room lookup and
`isActive`, `attendees > room.capacity`, `Reservation.checkAvailability`,
minimum duration (`durationMinutes < 30`, i.e. `durationMs < 1800000`),
maximum duration (`durationMinutes > 8 * 60`, i.e. `durationMs > 28800000`),
then `Reservation.create` (status defaults to `'confirmed'` per the schema). -/
def createReservation (rooms : List Room) (st : Store) (now : Int)
    (userId : Nat) (req : CreateRequest) : CreateResult × Store :=
  if !(createRequestValid now req) then (CreateResult.validationError, st)
  else
    match findRoom rooms req.room with
    | none => (CreateResult.roomNotFound, st)
    | some rm =>
      if !rm.isActive then (CreateResult.roomNotFound, st)
      else if req.attendees > rm.capacity then (CreateResult.capacityExceeded, st)
      else if !(checkAvailability st.reservations req.room req.startTime req.endTime none) then
        (CreateResult.slotConflict, st)
      else if req.endTime - req.startTime < 1800000 then
        (CreateResult.durationTooShort, st)
      else if req.endTime - req.startTime > 28800000 then
        (CreateResult.durationTooLong, st)
      else
        let r : Reservation :=
          ⟨st.nextId, userId, req.room, req.startTime, req.endTime,
            req.attendees, req.purposeLen, RStatus.confirmed⟩
        (CreateResult.created r, ⟨st.reservations ++ [r], st.nextId + 1⟩)

/-- Actor role as supplied by the auth middleware. -/
inductive Role where
  | user
  | admin
deriving DecidableEq, Repr

/-- The authenticated caller (`req.user`). -/
structure Actor where
  aid : Nat
  role : Role
deriving DecidableEq, Repr

/-- Outcome of the cancellation endpoints. -/
inductive CancelResult where
  | notFound
  | forbidden
  | tooLate
  | ok
deriving DecidableEq, Repr

/-- HTTP status the controller sends with each cancellation outcome:
404 not found, 403 ownership rejection, 400 lead-time rejection, 200 success. -/
def cancelHttpStatus : CancelResult → Nat
  | CancelResult.notFound => 404
  | CancelResult.forbidden => 403
  | CancelResult.tooLate => 400
  | CancelResult.ok => 200

/-- `cancelReservation` (`reservationController.js` lines 205-251): find by
id; non-admins must own the reservation (403); non-admins must also pass
`canBeCancelled` (400); then `status = 'cancelled'` is saved. -/
def cancelReservation (st : Store) (now : Int) (actor : Actor) (rid : Nat) :
    CancelResult × Store :=
  match findReservation st.reservations rid with
  | none => (CancelResult.notFound, st)
  | some r =>
    if actor.role != Role.admin && r.user != actor.aid then
      (CancelResult.forbidden, st)
    else if actor.role != Role.admin && !(canBeCancelled r now) then
      (CancelResult.tooLate, st)
    else
      (CancelResult.ok,
        { st with reservations := setStatusFirst st.reservations rid RStatus.cancelled })

/-- `adminCancelReservation` (`reservationController.js` lines 459-490):
find by id, then unconditionally set `status = 'cancelled'` and save. -/
def adminCancelReservation (st : Store) (rid : Nat) : CancelResult × Store :=
  match findReservation st.reservations rid with
  | none => (CancelResult.notFound, st)
  | some _ =>
    (CancelResult.ok,
      { st with reservations := setStatusFirst st.reservations rid RStatus.cancelled })

/-- Outcome of the admin status-override endpoint. -/
inductive UpdateResult where
  | invalidStatus
  | notFound
  | ok
deriving DecidableEq, Repr

/-- The enum membership test of `updateReservationStatus`:
`['pending', 'confirmed', 'cancelled', 'completed'].includes(status)`. -/
def parseStatus (s : String) : Option RStatus :=
  if s = "pending" then some RStatus.pending
  else if s = "confirmed" then some RStatus.confirmed
  else if s = "cancelled" then some RStatus.cancelled
  else if s = "completed" then some RStatus.completed
  else none

/-- `updateReservationStatus` (`reservationController.js` lines 416-456):
reject a string outside the enum (400), then `findByIdAndUpdate(id, {status})`
— note: no availability check of any kind. -/
def updateReservationStatus (st : Store) (rid : Nat) (statusStr : String) :
    UpdateResult × Store :=
  match parseStatus statusStr with
  | none => (UpdateResult.invalidStatus, st)
  | some newStatus =>
    match findReservation st.reservations rid with
    | none => (UpdateResult.notFound, st)
    | some _ =>
      (UpdateResult.ok,
        { st with reservations := setStatusFirst st.reservations rid newStatus })

/-- One core operation, for stating invariants over operation sequences. -/
inductive Op where
  | create (now : Int) (userId : Nat) (req : CreateRequest)
  | cancel (now : Int) (actor : Actor) (rid : Nat)
  | updateStatus (rid : Nat) (statusStr : String)
  | adminCancel (rid : Nat)

/-- The store after one operation (responses discarded). -/
def applyOp (rooms : List Room) (st : Store) (op : Op) : Store :=
  match op with
  | Op.create now userId req => (createReservation rooms st now userId req).2
  | Op.cancel now actor rid => (cancelReservation st now actor rid).2
  | Op.updateStatus rid s => (updateReservationStatus st rid s).2
  | Op.adminCancel rid => (adminCancelReservation st rid).2

/-- The store after a sequence of operations starting from the empty store. -/
def runOps (rooms : List Room) (ops : List Op) : Store :=
  ops.foldl (applyOp rooms) emptyStore

/-- Two stored reservations are compatible when they are not both active on
the same room with overlapping half-open intervals. -/
def resCompatB (r1 r2 : Reservation) : Bool :=
  !(r1.room == r2.room && isActiveStatus r1.status && isActiveStatus r2.status &&
    overlaps r1.startTime r1.endTime r2.startTime r2.endTime)

/-- The spec's no-overlap invariant over a reservation collection: every
pair of distinct entries is compatible. -/
def noOverlapB : List Reservation → Bool
  | [] => true
  | r :: rest => rest.all (resCompatB r) && noOverlapB rest

/-- The room rule of the controller: `Room.findById` succeeds and the room is
active. -/
def roomActiveOk (rooms : List Room) (roomId : Nat) : Bool :=
  match findRoom rooms roomId with
  | none => false
  | some rm => rm.isActive

/-- The capacity rule of the controller: the found room is not over capacity
(`!(attendees > room.capacity)`). -/
def capacityOk (rooms : List Room) (roomId attendees : Nat) : Bool :=
  match findRoom rooms roomId with
  | none => false
  | some rm => !(attendees > rm.capacity)

/-- The conflict rule: `Reservation.checkAvailability` with no exclusion. -/
def availOk (st : Store) (req : CreateRequest) : Bool :=
  checkAvailability st.reservations req.room req.startTime req.endTime none

/-- The minimum-duration guard of the controller (30 minutes = 1800000 ms). -/
def durShortB (req : CreateRequest) : Bool :=
  req.endTime - req.startTime < 1800000

/-- The maximum-duration guard of the controller (8 hours = 28800000 ms). -/
def durLongB (req : CreateRequest) : Bool :=
  req.endTime - req.startTime > 28800000

/-- A concrete active room, an existing confirmed reservation on it for
`[3600000, 10800000)`, and the store holding that reservation. -/
def sampleRoom : Room := ⟨1, 10, true⟩

def sampleRes : Reservation := ⟨0, 5, 1, 3600000, 10800000, 2, 10, RStatus.confirmed⟩

def sampleStore : Store := ⟨[sampleRes], 1⟩

/-- A confirmed reservation starting 10000000 ms (~2.8 h) after time 0, its
owner, and the store holding it. -/
def ownerActor : Actor := ⟨5, Role.user⟩

def futureRes : Reservation := ⟨0, 5, 1, 10000000, 12000000, 2, 10, RStatus.confirmed⟩

def futureStore : Store := ⟨[futureRes], 1⟩

/-- A confirmed reservation starting only 1 hour after time 0 (inside the
lead-time window), and the store holding it. -/
def nearRes : Reservation := ⟨0, 5, 1, 3600000, 9000000, 2, 10, RStatus.confirmed⟩

def nearStore : Store := ⟨[nearRes], 1⟩

/-- An already-cancelled reservation and the store holding it. -/
def cancelledRes : Reservation := ⟨0, 5, 1, 3600000, 9000000, 2, 10, RStatus.cancelled⟩

def cancelledStore : Store := ⟨[cancelledRes], 1⟩

/-- An operation that never re-activates a reservation through the unchecked
admin status override: `updateReservationStatus` is only applied with a
target status outside `{pending, confirmed}`; all other operations qualify
unconditionally. -/
def opSafe : Op → Bool
  | Op.updateStatus _ s =>
    parseStatus s != some RStatus.pending && parseStatus s != some RStatus.confirmed
  | _ => true

/-- The four-operation trace refuting C1 as stated: create a reservation,
admin-cancel it via the status override, book the freed slot, then
re-activate the first reservation through `updateReservationStatus`. -/
def cexOps : List Op :=
  [Op.create 0 7 ⟨1, 3600000, 5400000, 2, 10⟩,
   Op.updateStatus 0 "cancelled",
   Op.create 0 8 ⟨1, 3600000, 5400000, 2, 10⟩,
   Op.updateStatus 0 "confirmed"]

/-- A trace of all four operations whose status overrides are
non-reactivating. -/
def safeOps : List Op :=
  [Op.create 0 7 ⟨1, 3600000, 5400000, 2, 10⟩,
   Op.create 0 8 ⟨1, 5400000, 7200000, 2, 10⟩,
   Op.cancel 0 ⟨7, Role.user⟩ 0,
   Op.updateStatus 1 "completed",
   Op.adminCancel 1]

example : overlapOr 0 10 10 20 = false := by decide

example : overlapOr 0 10 5 15 = true := by decide

example : canBeCancelled ⟨0, 1, 1, 7200001, 9000000, 1, 5, RStatus.confirmed⟩ 0 = true := by decide

example : canBeCancelled ⟨0, 1, 1, 7200000, 9000000, 1, 5, RStatus.confirmed⟩ 0 = false := by decide

/-! ### Basic lemmas about the conflict query -/

theorem overlapOr_eq_true_iff (rs re s e : Int) :
    overlapOr rs re s e = true ↔
      (rs ≥ s ∧ rs < e) ∨ (re > s ∧ re ≤ e) ∨ (rs ≤ s ∧ re ≥ e) := by
  simp [overlapOr, or_assoc]

theorem overlaps_eq_true_iff (a b c d : Int) :
    overlaps a b c d = true ↔ a < d ∧ c < b := by
  simp [overlaps]

/-- If the three-disjunct query does not match, the intervals do not overlap
(no validity hypotheses needed in this direction). -/
theorem overlapOr_false_imp_no_overlap (rs re s e : Int)
    (h : overlapOr rs re s e = false) :
    overlaps rs re s e = false := by
  apply Bool.eq_false_iff.mpr
  intro hT
  rw [overlaps_eq_true_iff] at hT
  have h2 : ¬ (overlapOr rs re s e = true) := by simp [h]
  rw [overlapOr_eq_true_iff] at h2
  omega

/-- C2: for valid half-open intervals (existing `[a,b)` with `a < b`,
candidate `[c,d)` with `c < d`), the three-disjunct conflict query of
`checkAvailability` matches exactly when the single inequality pair
`a < d AND c < b` holds; in particular back-to-back intervals (candidate
starting at the existing end, or ending at the existing start) never match. -/
theorem conflictQuery_matches_halfOpen_overlap (a b c d : Int)
    (hab : a < b) (hcd : c < d) :
    (overlapOr a b c d = overlaps a b c d) ∧
    (c = b → overlapOr a b c d = false) ∧
    (d = a → overlapOr a b c d = false) := by
  have h1 : overlapOr a b c d = true ↔ a < d ∧ c < b := by
    rw [overlapOr_eq_true_iff]; omega
  refine ⟨?_, ?_, ?_⟩
  · rw [Bool.eq_iff_iff, h1, overlaps_eq_true_iff]
  · intro hc
    apply Bool.eq_false_iff.mpr
    intro hT
    rw [h1] at hT
    omega
  · intro hd
    apply Bool.eq_false_iff.mpr
    intro hT
    rw [h1] at hT
    omega

theorem conflictQuery_matches_halfOpen_overlap_witness :
    ((0:Int) < 2 ∧ (1:Int) < 3) ∧
    ((overlapOr 0 2 1 3 = overlaps 0 2 1 3) ∧
      ((1:Int) = 2 → overlapOr 0 2 1 3 = false) ∧
      ((3:Int) = 0 → overlapOr 0 2 1 3 = false)) :=
  ⟨by decide, conflictQuery_matches_halfOpen_overlap 0 2 1 3 (by decide) (by decide)⟩

/-- C9: the conflict query with an exclusion id never counts the reservation
carrying that id: it behaves exactly as the query with no exclusion over the
collection with that reservation removed, so re-checking a reservation's own
interval while excluding its own id reports the slot available whenever no
other active reservation on the room overlaps it. -/
theorem checkAvailability_excludes_self (resvs : List Reservation) (roomId : Nat)
    (s e : Int) (ex : Nat) :
    checkAvailability resvs roomId s e (some ex) =
      checkAvailability (resvs.filter (fun r => r.rid != ex)) roomId s e none := by
  simp only [checkAvailability]
  congr 1
  induction resvs with
  | nil => rfl
  | cons r rest ih =>
    simp only [List.filter_cons]
    cases h : (r.rid != ex) with
    | false =>
      simp only [Bool.false_eq_true, if_false, List.any_cons, ih]
      have : conflictMatches roomId s e (some ex) r = false := by
        simp [conflictMatches, h]
      rw [this]
      simp
    | true =>
      simp only [if_true, List.any_cons, ih]
      have : conflictMatches roomId s e (some ex) r =
          conflictMatches roomId s e none r := by
        simp [conflictMatches, h]
      rw [this]

/-! ### Outcome characterization of createReservation -/

theorem roomActiveOk_extract (rooms : List Room) (roomId : Nat)
    (h : roomActiveOk rooms roomId = true) :
    ∃ rm, findRoom rooms roomId = some rm ∧ rm.isActive = true := by
  revert h
  unfold roomActiveOk
  cases hm : findRoom rooms roomId <;> simp

theorem capacityOk_some (rooms : List Room) (roomId attendees : Nat) (rm : Room)
    (h : findRoom rooms roomId = some rm) :
    capacityOk rooms roomId attendees = !(attendees > rm.capacity) := by
  unfold capacityOk
  rw [h]

theorem createReservation_eq_validationError (rooms : List Room) (st : Store)
    (now : Int) (userId : Nat) (req : CreateRequest)
    (hv : createRequestValid now req = false) :
    (createReservation rooms st now userId req).1 = CreateResult.validationError := by
  simp [createReservation, hv]

theorem createReservation_eq_roomNotFound (rooms : List Room) (st : Store)
    (now : Int) (userId : Nat) (req : CreateRequest)
    (hv : createRequestValid now req = true)
    (hr : roomActiveOk rooms req.room = false) :
    (createReservation rooms st now userId req).1 = CreateResult.roomNotFound := by
  revert hr
  unfold roomActiveOk
  cases hm : findRoom rooms req.room <;> intro hr
  · simp [createReservation, hv, hm]
  · simp at hr
    simp [createReservation, hv, hm, hr]

theorem createReservation_eq_capacityExceeded (rooms : List Room) (st : Store)
    (now : Int) (userId : Nat) (req : CreateRequest) (rm : Room)
    (hv : createRequestValid now req = true)
    (hm : findRoom rooms req.room = some rm)
    (ha : rm.isActive = true)
    (hcap : req.attendees > rm.capacity) :
    (createReservation rooms st now userId req).1 = CreateResult.capacityExceeded := by
  simp [createReservation, hv, hm, ha, hcap]

theorem createReservation_eq_slotConflict (rooms : List Room) (st : Store)
    (now : Int) (userId : Nat) (req : CreateRequest) (rm : Room)
    (hv : createRequestValid now req = true)
    (hm : findRoom rooms req.room = some rm)
    (ha : rm.isActive = true)
    (hcap : ¬ req.attendees > rm.capacity)
    (hav : checkAvailability st.reservations req.room req.startTime req.endTime none = false) :
    (createReservation rooms st now userId req).1 = CreateResult.slotConflict := by
  simp [createReservation, hv, hm, ha, hcap, hav]

theorem createReservation_eq_durationTooShort (rooms : List Room) (st : Store)
    (now : Int) (userId : Nat) (req : CreateRequest) (rm : Room)
    (hv : createRequestValid now req = true)
    (hm : findRoom rooms req.room = some rm)
    (ha : rm.isActive = true)
    (hcap : ¬ req.attendees > rm.capacity)
    (hav : checkAvailability st.reservations req.room req.startTime req.endTime none = true)
    (hds : req.endTime - req.startTime < 1800000) :
    (createReservation rooms st now userId req).1 = CreateResult.durationTooShort := by
  simp [createReservation, hv, hm, ha, hcap, hav, hds]

theorem createReservation_eq_durationTooLong (rooms : List Room) (st : Store)
    (now : Int) (userId : Nat) (req : CreateRequest) (rm : Room)
    (hv : createRequestValid now req = true)
    (hm : findRoom rooms req.room = some rm)
    (ha : rm.isActive = true)
    (hcap : ¬ req.attendees > rm.capacity)
    (hav : checkAvailability st.reservations req.room req.startTime req.endTime none = true)
    (hds : ¬ req.endTime - req.startTime < 1800000)
    (hdl : req.endTime - req.startTime > 28800000) :
    (createReservation rooms st now userId req).1 = CreateResult.durationTooLong := by
  simp [createReservation, hv, hm, ha, hcap, hav, hds, hdl]

theorem createReservation_eq_created (rooms : List Room) (st : Store)
    (now : Int) (userId : Nat) (req : CreateRequest) (rm : Room)
    (hv : createRequestValid now req = true)
    (hm : findRoom rooms req.room = some rm)
    (ha : rm.isActive = true)
    (hcap : ¬ req.attendees > rm.capacity)
    (hav : checkAvailability st.reservations req.room req.startTime req.endTime none = true)
    (hds : ¬ req.endTime - req.startTime < 1800000)
    (hdl : ¬ req.endTime - req.startTime > 28800000) :
    createReservation rooms st now userId req =
      (CreateResult.created ⟨st.nextId, userId, req.room, req.startTime,
          req.endTime, req.attendees, req.purposeLen, RStatus.confirmed⟩,
        ⟨st.reservations ++ [⟨st.nextId, userId, req.room, req.startTime,
          req.endTime, req.attendees, req.purposeLen, RStatus.confirmed⟩],
          st.nextId + 1⟩) := by
  simp [createReservation, hv, hm, ha, hcap, hav, hds, hdl]

/-- C3 (amended): `createReservation` evaluates its admission rules in the
fixed order 1) Joi input validation (start strictly in the future, end after
start, attendees ≥ 1, purpose length), 2) room exists and is active,
3) attendees within capacity, 4) no slot conflict, 5) duration ≥ 30 minutes,
6) duration ≤ 8 hours; the first violated rule determines the rejection — in
particular the conflict lookup runs before the duration checks, not after
them. -/
theorem createReservation_rule_order (rooms : List Room) (st : Store)
    (now : Int) (userId : Nat) (req : CreateRequest) :
    (createRequestValid now req = false →
      (createReservation rooms st now userId req).1 = CreateResult.validationError) ∧
    (createRequestValid now req = true → roomActiveOk rooms req.room = false →
      (createReservation rooms st now userId req).1 = CreateResult.roomNotFound) ∧
    (createRequestValid now req = true → roomActiveOk rooms req.room = true →
      capacityOk rooms req.room req.attendees = false →
      (createReservation rooms st now userId req).1 = CreateResult.capacityExceeded) ∧
    (createRequestValid now req = true → roomActiveOk rooms req.room = true →
      capacityOk rooms req.room req.attendees = true → availOk st req = false →
      (createReservation rooms st now userId req).1 = CreateResult.slotConflict) ∧
    (createRequestValid now req = true → roomActiveOk rooms req.room = true →
      capacityOk rooms req.room req.attendees = true → availOk st req = true →
      durShortB req = true →
      (createReservation rooms st now userId req).1 = CreateResult.durationTooShort) ∧
    (createRequestValid now req = true → roomActiveOk rooms req.room = true →
      capacityOk rooms req.room req.attendees = true → availOk st req = true →
      durShortB req = false → durLongB req = true →
      (createReservation rooms st now userId req).1 = CreateResult.durationTooLong) ∧
    (createRequestValid now req = true → roomActiveOk rooms req.room = true →
      capacityOk rooms req.room req.attendees = true → availOk st req = true →
      durShortB req = false → durLongB req = false →
      (createReservation rooms st now userId req).1 =
        CreateResult.created ⟨st.nextId, userId, req.room, req.startTime,
          req.endTime, req.attendees, req.purposeLen, RStatus.confirmed⟩) := by
  refine ⟨fun hv => createReservation_eq_validationError rooms st now userId req hv,
    fun hv hr => createReservation_eq_roomNotFound rooms st now userId req hv hr,
    ?_, ?_, ?_, ?_, ?_⟩
  · intro hv hr hc
    obtain ⟨rm, hm, ha⟩ := roomActiveOk_extract rooms req.room hr
    rw [capacityOk_some rooms req.room req.attendees rm hm] at hc
    simp at hc
    exact createReservation_eq_capacityExceeded rooms st now userId req rm hv hm ha hc
  · intro hv hr hc hav
    obtain ⟨rm, hm, ha⟩ := roomActiveOk_extract rooms req.room hr
    rw [capacityOk_some rooms req.room req.attendees rm hm] at hc
    simp at hc
    rw [availOk] at hav
    exact createReservation_eq_slotConflict rooms st now userId req rm hv hm ha
      (by omega) hav
  · intro hv hr hc hav hds
    obtain ⟨rm, hm, ha⟩ := roomActiveOk_extract rooms req.room hr
    rw [capacityOk_some rooms req.room req.attendees rm hm] at hc
    simp at hc
    rw [availOk] at hav
    rw [durShortB] at hds
    simp at hds
    exact createReservation_eq_durationTooShort rooms st now userId req rm hv hm ha
      (by omega) hav hds
  · intro hv hr hc hav hds hdl
    obtain ⟨rm, hm, ha⟩ := roomActiveOk_extract rooms req.room hr
    rw [capacityOk_some rooms req.room req.attendees rm hm] at hc
    simp at hc
    rw [availOk] at hav
    rw [durShortB] at hds
    simp at hds
    rw [durLongB] at hdl
    simp at hdl
    exact createReservation_eq_durationTooLong rooms st now userId req rm hv hm ha
      (by omega) hav (by omega) (by omega)
  · intro hv hr hc hav hds hdl
    obtain ⟨rm, hm, ha⟩ := roomActiveOk_extract rooms req.room hr
    rw [capacityOk_some rooms req.room req.attendees rm hm] at hc
    simp at hc
    rw [availOk] at hav
    rw [durShortB] at hds
    simp at hds
    rw [durLongB] at hdl
    simp at hdl
    rw [createReservation_eq_created rooms st now userId req rm hv hm ha
      (by omega) hav (by omega) (by omega)]

/-- C3 counterexample: a request only 10 minutes long (violating the
30-minute minimum) whose interval overlaps an existing confirmed reservation
is rejected with the slot-conflict error, not the duration error — the
conflict lookup runs before the duration rules. -/
theorem createReservation_duration_vs_conflict_cex :
    ((3600600 : Int) - 3600000 < 1800000) ∧
    checkAvailability sampleStore.reservations 1 3600000 3600600 none = false ∧
    (createReservation [sampleRoom] sampleStore 0 6 ⟨1, 3600000, 3600600, 2, 10⟩).1 =
      CreateResult.slotConflict ∧
    (createReservation [sampleRoom] sampleStore 0 6 ⟨1, 3600000, 3600600, 2, 10⟩).1 ≠
      CreateResult.durationTooShort := by
  decide

theorem createReservation_rule_order_witness :
    (createRequestValid 0 ⟨1, 1000, 601000, 2, 10⟩ = true ∧
      roomActiveOk [sampleRoom] 1 = true ∧
      capacityOk [sampleRoom] 1 2 = true ∧
      availOk emptyStore ⟨1, 1000, 601000, 2, 10⟩ = true ∧
      durShortB ⟨1, 1000, 601000, 2, 10⟩ = true) ∧
    (createReservation [sampleRoom] emptyStore 0 6 ⟨1, 1000, 601000, 2, 10⟩).1 =
      CreateResult.durationTooShort :=
  ⟨by decide,
    (createReservation_rule_order [sampleRoom] emptyStore 0 6
        ⟨1, 1000, 601000, 2, 10⟩).2.2.2.2.1
      (by decide) (by decide) (by decide) (by decide) (by decide)⟩

/-- C7: duration boundaries are inclusive: with every other admission rule
satisfied, a request spanning exactly 30 minutes is admitted, 29 minutes is
rejected as too short, exactly 8 hours is admitted, and 8 hours 1 minute is
rejected as too long, the two duration rejections being distinct reasons. -/
theorem duration_boundaries (rooms : List Room) (st : Store) (now start : Int)
    (userId roomId att plen : Nat) (rm : Room)
    (hm : findRoom rooms roomId = some rm) (ha : rm.isActive = true)
    (hcap : att ≤ rm.capacity) (hatt : 1 ≤ att) (hp5 : 5 ≤ plen) (hp200 : plen ≤ 200)
    (hstart : now < start)
    (hav30 : checkAvailability st.reservations roomId start (start + 1800000) none = true)
    (hav29 : checkAvailability st.reservations roomId start (start + 1740000) none = true)
    (hav480 : checkAvailability st.reservations roomId start (start + 28800000) none = true)
    (hav481 : checkAvailability st.reservations roomId start (start + 28860000) none = true) :
    (∃ r, (createReservation rooms st now userId ⟨roomId, start, start + 1800000, att, plen⟩).1 =
      CreateResult.created r) ∧
    (createReservation rooms st now userId ⟨roomId, start, start + 1740000, att, plen⟩).1 =
      CreateResult.durationTooShort ∧
    (∃ r, (createReservation rooms st now userId ⟨roomId, start, start + 28800000, att, plen⟩).1 =
      CreateResult.created r) ∧
    (createReservation rooms st now userId ⟨roomId, start, start + 28860000, att, plen⟩).1 =
      CreateResult.durationTooLong ∧
    CreateResult.durationTooShort ≠ CreateResult.durationTooLong := by
  have hcap' : ¬ att > rm.capacity := by omega
  have hv30 : createRequestValid now ⟨roomId, start, start + 1800000, att, plen⟩ = true := by
    simp [createRequestValid] <;> omega
  have hv29 : createRequestValid now ⟨roomId, start, start + 1740000, att, plen⟩ = true := by
    simp [createRequestValid] <;> omega
  have hv480 : createRequestValid now ⟨roomId, start, start + 28800000, att, plen⟩ = true := by
    simp [createRequestValid] <;> omega
  have hv481 : createRequestValid now ⟨roomId, start, start + 28860000, att, plen⟩ = true := by
    simp [createRequestValid] <;> omega
  refine ⟨⟨⟨st.nextId, userId, roomId, start, start + 1800000, att, plen,
      RStatus.confirmed⟩, ?_⟩, ?_,
    ⟨⟨st.nextId, userId, roomId, start, start + 28800000, att, plen,
      RStatus.confirmed⟩, ?_⟩, ?_, by decide⟩
  · rw [createReservation_eq_created rooms st now userId _ rm hv30 hm ha hcap' hav30
      (by show ¬ (start + 1800000 - start < 1800000); omega)
      (by show ¬ (start + 1800000 - start > 28800000); omega)]
  · exact createReservation_eq_durationTooShort rooms st now userId _ rm hv29 hm ha hcap'
      hav29 (by show start + 1740000 - start < 1800000; omega)
  · rw [createReservation_eq_created rooms st now userId _ rm hv480 hm ha hcap' hav480
      (by show ¬ (start + 28800000 - start < 1800000); omega)
      (by show ¬ (start + 28800000 - start > 28800000); omega)]
  · exact createReservation_eq_durationTooLong rooms st now userId _ rm hv481 hm ha hcap'
      hav481 (by show ¬ (start + 28860000 - start < 1800000); omega)
      (by show start + 28860000 - start > 28800000; omega)

theorem duration_boundaries_witness :
    (findRoom [sampleRoom] 1 = some sampleRoom ∧ sampleRoom.isActive = true ∧
      10 ≤ sampleRoom.capacity ∧ (0:Int) < 1000 ∧
      checkAvailability emptyStore.reservations 1 1000 (1000 + 1800000) none = true ∧
      checkAvailability emptyStore.reservations 1 1000 (1000 + 1740000) none = true ∧
      checkAvailability emptyStore.reservations 1 1000 (1000 + 28800000) none = true ∧
      checkAvailability emptyStore.reservations 1 1000 (1000 + 28860000) none = true) ∧
    ((∃ r, (createReservation [sampleRoom] emptyStore 0 6 ⟨1, 1000, 1000 + 1800000, 10, 10⟩).1 =
      CreateResult.created r) ∧
    (createReservation [sampleRoom] emptyStore 0 6 ⟨1, 1000, 1000 + 1740000, 10, 10⟩).1 =
      CreateResult.durationTooShort ∧
    (∃ r, (createReservation [sampleRoom] emptyStore 0 6 ⟨1, 1000, 1000 + 28800000, 10, 10⟩).1 =
      CreateResult.created r) ∧
    (createReservation [sampleRoom] emptyStore 0 6 ⟨1, 1000, 1000 + 28860000, 10, 10⟩).1 =
      CreateResult.durationTooLong ∧
    CreateResult.durationTooShort ≠ CreateResult.durationTooLong) :=
  ⟨by decide,
    duration_boundaries [sampleRoom] emptyStore 0 1000 6 1 10 10 sampleRoom
      (by decide) (by decide) (by decide) (by decide) (by decide) (by decide)
      (by decide) (by decide) (by decide) (by decide) (by decide)⟩

/-- C8: the capacity boundary is inclusive: with validation passed and the
room found active, a request with attendees equal to the room's capacity is
never rejected for capacity, one with attendees strictly above capacity is
rejected with the capacity error, and that rejection is distinct from the
slot-conflict rejection (different constructors, HTTP 400 vs 409). -/
theorem capacity_boundary (rooms : List Room) (st : Store) (now : Int)
    (userId : Nat) (req : CreateRequest) (rm : Room)
    (hv : createRequestValid now req = true)
    (hm : findRoom rooms req.room = some rm)
    (ha : rm.isActive = true) :
    (req.attendees = rm.capacity →
      (createReservation rooms st now userId req).1 ≠ CreateResult.capacityExceeded) ∧
    (req.attendees > rm.capacity →
      (createReservation rooms st now userId req).1 = CreateResult.capacityExceeded) ∧
    CreateResult.capacityExceeded ≠ CreateResult.slotConflict ∧
    createHttpStatus CreateResult.capacityExceeded = 400 ∧
    createHttpStatus CreateResult.slotConflict = 409 := by
  refine ⟨?_,
    fun hcap => createReservation_eq_capacityExceeded rooms st now userId req rm hv hm ha hcap,
    by decide, by decide, by decide⟩
  intro he
  have hcap : ¬ req.attendees > rm.capacity := by omega
  cases hav : checkAvailability st.reservations req.room req.startTime req.endTime none
  case false =>
    rw [createReservation_eq_slotConflict rooms st now userId req rm hv hm ha hcap hav]
    simp
  case true =>
    by_cases hds : req.endTime - req.startTime < 1800000
    case pos =>
      rw [createReservation_eq_durationTooShort rooms st now userId req rm hv hm ha hcap hav hds]
      simp
    case neg =>
      by_cases hdl : req.endTime - req.startTime > 28800000
      case pos =>
        rw [createReservation_eq_durationTooLong rooms st now userId req rm hv hm ha hcap hav hds hdl]
        simp
      case neg =>
        rw [createReservation_eq_created rooms st now userId req rm hv hm ha hcap hav hds hdl]
        simp

theorem capacity_boundary_witness :
    (createRequestValid 0 ⟨1, 1000, 2801000, 10, 10⟩ = true ∧
      findRoom [sampleRoom] 1 = some sampleRoom ∧ sampleRoom.isActive = true) ∧
    ((10 = sampleRoom.capacity →
      (createReservation [sampleRoom] emptyStore 0 6 ⟨1, 1000, 2801000, 10, 10⟩).1 ≠
        CreateResult.capacityExceeded) ∧
    (10 > sampleRoom.capacity →
      (createReservation [sampleRoom] emptyStore 0 6 ⟨1, 1000, 2801000, 10, 10⟩).1 =
        CreateResult.capacityExceeded) ∧
    CreateResult.capacityExceeded ≠ CreateResult.slotConflict ∧
    createHttpStatus CreateResult.capacityExceeded = 400 ∧
    createHttpStatus CreateResult.slotConflict = 409) :=
  ⟨by decide,
    capacity_boundary [sampleRoom] emptyStore 0 6 ⟨1, 1000, 2801000, 10, 10⟩ sampleRoom
      (by decide) (by decide) (by decide)⟩

/-! ### Lemmas about the cancellation path -/

theorem findReservation_setStatusFirst (resvs : List Reservation) (rid : Nat)
    (stt : RStatus) (r : Reservation)
    (hf : findReservation resvs rid = some r) :
    findReservation (setStatusFirst resvs rid stt) rid =
      some { r with status := stt } := by
  induction resvs with
  | nil => simp [findReservation] at hf
  | cons a rest ih =>
    cases hid : (a.rid == rid)
    case false =>
      rw [findReservation, List.find?_cons_of_neg _ (by simp [hid])] at hf
      rw [setStatusFirst]
      simp only [hid, Bool.false_eq_true, if_false]
      rw [findReservation, List.find?_cons_of_neg _ (by simp [hid])]
      exact ih hf
    case true =>
      rw [findReservation, List.find?_cons_of_pos _ (by simp [hid])] at hf
      injection hf with h
      subst h
      rw [setStatusFirst]
      simp only [hid, if_true]
      rw [findReservation, List.find?_cons_of_pos _ (by simp [hid])]

theorem setStatusFirst_noop (resvs : List Reservation) (rid : Nat)
    (r : Reservation)
    (hf : findReservation resvs rid = some r)
    (hst : r.status = RStatus.cancelled) :
    setStatusFirst resvs rid RStatus.cancelled = resvs := by
  induction resvs with
  | nil => rfl
  | cons a rest ih =>
    cases hid : (a.rid == rid)
    case false =>
      rw [findReservation, List.find?_cons_of_neg _ (by simp [hid])] at hf
      rw [setStatusFirst]
      simp only [hid, Bool.false_eq_true, if_false]
      rw [ih hf]
    case true =>
      rw [findReservation, List.find?_cons_of_pos _ (by simp [hid])] at hf
      injection hf with h
      subst h
      rw [setStatusFirst]
      simp only [hid, if_true]
      have ha' : { a with status := RStatus.cancelled } = a := by
        cases a
        simp_all
      rw [ha']

/-- C4: for an existing reservation, a cancellation by a non-admin actor
equal to the owning user succeeds iff the reservation is 'confirmed' and the
call is made strictly more than 2 hours (7200000 ms) before the start time;
an admin's cancellation succeeds unconditionally; on success the stored
status becomes 'cancelled'. -/
theorem cancelReservation_guard (stq : Store) (now : Int) (actor : Actor)
    (rid : Nat) (r : Reservation)
    (hf : findReservation stq.reservations rid = some r) :
    (actor.role ≠ Role.admin → actor.aid = r.user →
      ((cancelReservation stq now actor rid).1 = CancelResult.ok ↔
        (r.status = RStatus.confirmed ∧ r.startTime - now > 7200000))) ∧
    (actor.role = Role.admin →
      (cancelReservation stq now actor rid).1 = CancelResult.ok) ∧
    ((cancelReservation stq now actor rid).1 = CancelResult.ok →
      findReservation (cancelReservation stq now actor rid).2.reservations rid =
        some { r with status := RStatus.cancelled }) := by
  refine ⟨?_, ?_, ?_⟩
  · intro hrole hown
    have hne : (actor.role != Role.admin) = true := bne_iff_ne.mpr hrole
    have hob : (r.user != actor.aid) = false := by
      simp [hown]
    cases hc : canBeCancelled r now
    case false =>
      have hgoal : (cancelReservation stq now actor rid).1 = CancelResult.tooLate := by
        simp [cancelReservation, hf, hne, hob, hc]
      rw [hgoal]
      simp [canBeCancelled] at hc
      constructor
      · intro h
        exact absurd h (by decide)
      · rintro ⟨h1, h2⟩
        have := hc h1
        omega
    case true =>
      have hgoal : (cancelReservation stq now actor rid).1 = CancelResult.ok := by
        simp [cancelReservation, hf, hne, hob, hc]
      rw [hgoal]
      simp [canBeCancelled] at hc
      constructor
      · intro _
        exact ⟨hc.1, hc.2⟩
      · intro _
        rfl
  · intro hrole
    have hne : (actor.role != Role.admin) = false := by
      simp [hrole]
    simp [cancelReservation, hf, hne]
  · intro hok
    have hres : (cancelReservation stq now actor rid).2.reservations =
        setStatusFirst stq.reservations rid RStatus.cancelled := by
      revert hok
      simp only [cancelReservation, hf]
      split
      · intro hok
        simp at hok
      · split
        · intro hok
          simp at hok
        · intro _
          rfl
    rw [hres]
    exact findReservation_setStatusFirst stq.reservations rid RStatus.cancelled r hf

theorem cancelReservation_guard_witness :
    (findReservation futureStore.reservations 0 = some futureRes) ∧
    ((ownerActor.role ≠ Role.admin → ownerActor.aid = futureRes.user →
      ((cancelReservation futureStore 0 ownerActor 0).1 = CancelResult.ok ↔
        (futureRes.status = RStatus.confirmed ∧ futureRes.startTime - 0 > 7200000))) ∧
    (ownerActor.role = Role.admin →
      (cancelReservation futureStore 0 ownerActor 0).1 = CancelResult.ok) ∧
    ((cancelReservation futureStore 0 ownerActor 0).1 = CancelResult.ok →
      findReservation (cancelReservation futureStore 0 ownerActor 0).2.reservations 0 =
        some { futureRes with status := RStatus.cancelled })) :=
  ⟨by decide, cancelReservation_guard futureStore 0 ownerActor 0 futureRes (by decide)⟩

/-- C5 (amended): when the owning non-admin user cancels a confirmed
reservation inside the 2-hour lead-time window, the rejection is the HTTP 400
lead-time rejection: distinguishable from the 404 not-found and from the 403
ownership (authorization) rejection, but carrying the same 400 bad-request
status as input-validation rejections — not an authorization-style 403. -/
theorem cancel_leadTime_rejection_kind (stq : Store) (now : Int) (actor : Actor)
    (rid : Nat) (r : Reservation)
    (hf : findReservation stq.reservations rid = some r)
    (hrole : actor.role ≠ Role.admin) (hown : actor.aid = r.user)
    (hst : r.status = RStatus.confirmed)
    (hwin : r.startTime - now ≤ 7200000) :
    (cancelReservation stq now actor rid).1 = CancelResult.tooLate ∧
    cancelHttpStatus CancelResult.tooLate = 400 ∧
    cancelHttpStatus CancelResult.notFound = 404 ∧
    cancelHttpStatus CancelResult.forbidden = 403 ∧
    cancelHttpStatus CancelResult.tooLate = createHttpStatus CreateResult.validationError := by
  have hne : (actor.role != Role.admin) = true := bne_iff_ne.mpr hrole
  have hob : (r.user != actor.aid) = false := by simp [hown]
  have hc : canBeCancelled r now = false := by
    simp [canBeCancelled]
    intro _
    omega
  refine ⟨?_, by decide, by decide, by decide, by decide⟩
  simp [cancelReservation, hf, hne, hob, hc]

/-- C5 counterexample: on a concrete confirmed reservation starting 1 hour
from now, the owner's in-window cancellation is rejected with HTTP 400 — the
same status kind as the bad-input/validation rejection and not the 403
authorization kind, refuting the claimed AccessDenied-style rejection. -/
theorem cancel_leadTime_not_authorization_cex :
    (cancelReservation ⟨[⟨0, 5, 1, 3600000, 9000000, 2, 10, RStatus.confirmed⟩], 1⟩ 0
        ⟨5, Role.user⟩ 0).1 = CancelResult.tooLate ∧
    cancelHttpStatus CancelResult.tooLate ≠ cancelHttpStatus CancelResult.forbidden ∧
    cancelHttpStatus CancelResult.tooLate = createHttpStatus CreateResult.validationError := by
  decide

theorem cancel_leadTime_rejection_kind_witness :
    (findReservation nearStore.reservations 0 = some nearRes ∧
      ownerActor.role ≠ Role.admin ∧ ownerActor.aid = nearRes.user ∧
      nearRes.status = RStatus.confirmed ∧ nearRes.startTime - 0 ≤ 7200000) ∧
    ((cancelReservation nearStore 0 ownerActor 0).1 = CancelResult.tooLate ∧
      cancelHttpStatus CancelResult.tooLate = 400 ∧
      cancelHttpStatus CancelResult.notFound = 404 ∧
      cancelHttpStatus CancelResult.forbidden = 403 ∧
      cancelHttpStatus CancelResult.tooLate = createHttpStatus CreateResult.validationError) :=
  ⟨by decide, cancel_leadTime_rejection_kind nearStore 0 ownerActor 0 nearRes
    (by decide) (by decide) (by decide) (by decide) (by decide)⟩

/-- C6: ownership precedes the lead-time guard: a non-admin actor whose
identity differs from the owning user is rejected with the 403 ownership
failure regardless of the reservation's status or start time, and the store
is unchanged by the rejected call. -/
theorem cancel_ownership_precedes_leadTime (stq : Store) (now : Int)
    (actor : Actor) (rid : Nat) (r : Reservation)
    (hf : findReservation stq.reservations rid = some r)
    (hrole : actor.role ≠ Role.admin) (hid : actor.aid ≠ r.user) :
    (cancelReservation stq now actor rid).1 = CancelResult.forbidden ∧
    cancelHttpStatus CancelResult.forbidden = 403 ∧
    (cancelReservation stq now actor rid).2 = stq := by
  have hne : (actor.role != Role.admin) = true := bne_iff_ne.mpr hrole
  have hob : (r.user != actor.aid) = true := bne_iff_ne.mpr fun h => hid h.symm
  refine ⟨?_, by decide, ?_⟩ <;> simp [cancelReservation, hf, hne, hob]

theorem cancel_ownership_precedes_leadTime_witness :
    (findReservation futureStore.reservations 0 = some futureRes ∧
      (Actor.mk 9 Role.user).role ≠ Role.admin ∧
      (Actor.mk 9 Role.user).aid ≠ futureRes.user) ∧
    ((cancelReservation futureStore 0 ⟨9, Role.user⟩ 0).1 = CancelResult.forbidden ∧
      cancelHttpStatus CancelResult.forbidden = 403 ∧
      (cancelReservation futureStore 0 ⟨9, Role.user⟩ 0).2 = futureStore) :=
  ⟨by decide, cancel_ownership_precedes_leadTime futureStore 0 ⟨9, Role.user⟩ 0 futureRes
    (by decide) (by decide) (by decide)⟩

/-- C10: admin re-cancel is an idempotent no-op: on an already-cancelled
reservation, `adminCancelReservation` succeeds (no terminal-state rejection),
leaves the store — and so the status — unchanged, and applying it twice
yields the same store as applying it once. -/
theorem adminCancel_idempotent (stq : Store) (rid : Nat) (r : Reservation)
    (hf : findReservation stq.reservations rid = some r)
    (hst : r.status = RStatus.cancelled) :
    (adminCancelReservation stq rid).1 = CancelResult.ok ∧
    (adminCancelReservation stq rid).2 = stq ∧
    (adminCancelReservation (adminCancelReservation stq rid).2 rid).2 =
      (adminCancelReservation stq rid).2 := by
  have hset := setStatusFirst_noop stq.reservations rid r hf hst
  have h2 : (adminCancelReservation stq rid).2 = stq := by
    simp [adminCancelReservation, hf, hset]
  refine ⟨by simp [adminCancelReservation, hf], h2, ?_⟩
  rw [h2]
  exact h2

theorem adminCancel_idempotent_witness :
    (findReservation cancelledStore.reservations 0 = some cancelledRes ∧
      cancelledRes.status = RStatus.cancelled) ∧
    ((adminCancelReservation cancelledStore 0).1 = CancelResult.ok ∧
      (adminCancelReservation cancelledStore 0).2 = cancelledStore ∧
      (adminCancelReservation (adminCancelReservation cancelledStore 0).2 0).2 =
        (adminCancelReservation cancelledStore 0).2) :=
  ⟨by decide, adminCancel_idempotent cancelledStore 0 cancelledRes (by decide) (by decide)⟩

/-! ### The no-overlap invariant over operation sequences -/

theorem resCompatB_of_inactive_left (r1 r2 : Reservation)
    (h : isActiveStatus r1.status = false) : resCompatB r1 r2 = true := by
  simp [resCompatB, h]

theorem resCompatB_of_inactive_right (r1 r2 : Reservation)
    (h : isActiveStatus r2.status = false) : resCompatB r1 r2 = true := by
  simp [resCompatB, h]

theorem all_resCompatB_setStatusFirst (a : Reservation) (resvs : List Reservation)
    (rid : Nat) (stt : RStatus) (hstt : isActiveStatus stt = false)
    (h : resvs.all (resCompatB a) = true) :
    (setStatusFirst resvs rid stt).all (resCompatB a) = true := by
  induction resvs with
  | nil => rfl
  | cons b rest ih =>
    rw [List.all_cons, Bool.and_eq_true] at h
    rw [setStatusFirst]
    cases hid : (b.rid == rid)
    case false =>
      simp only [hid, Bool.false_eq_true, if_false, List.all_cons, Bool.and_eq_true]
      exact ⟨h.1, ih h.2⟩
    case true =>
      simp only [hid, if_true, List.all_cons, Bool.and_eq_true]
      exact ⟨resCompatB_of_inactive_right a _ hstt, h.2⟩

theorem noOverlapB_setStatusFirst (resvs : List Reservation) (rid : Nat)
    (stt : RStatus) (hstt : isActiveStatus stt = false)
    (h : noOverlapB resvs = true) :
    noOverlapB (setStatusFirst resvs rid stt) = true := by
  induction resvs with
  | nil => rfl
  | cons a rest ih =>
    simp only [noOverlapB, Bool.and_eq_true] at h
    rw [setStatusFirst]
    cases hid : (a.rid == rid)
    case false =>
      simp only [hid, Bool.false_eq_true, if_false, noOverlapB, Bool.and_eq_true]
      exact ⟨all_resCompatB_setStatusFirst a rest rid stt hstt h.1, ih h.2⟩
    case true =>
      simp only [hid, if_true, noOverlapB, Bool.and_eq_true]
      constructor
      · rw [List.all_eq_true]
        intro b hb
        exact resCompatB_of_inactive_left _ b hstt
      · exact h.2

theorem noOverlapB_append_one (resvs : List Reservation) (nr : Reservation)
    (h : noOverlapB resvs = true)
    (hcompat : ∀ b ∈ resvs, resCompatB b nr = true) :
    noOverlapB (resvs ++ [nr]) = true := by
  induction resvs with
  | nil => simp [noOverlapB]
  | cons a rest ih =>
    simp only [noOverlapB, Bool.and_eq_true] at h
    simp only [List.cons_append, noOverlapB, Bool.and_eq_true]
    constructor
    · rw [List.append_eq, List.all_append]
      simp only [Bool.and_eq_true]
      refine ⟨h.1, ?_⟩
      simp only [List.all_cons, List.all_nil, Bool.and_true]
      exact hcompat a (by simp)
    · exact ih h.2 (fun b hb => hcompat b (by simp [hb]))

theorem resCompatB_of_checkAvailability (resvs : List Reservation) (roomId : Nat)
    (s e : Int)
    (hav : checkAvailability resvs roomId s e none = true)
    (b : Reservation) (hb : b ∈ resvs) (nr : Reservation)
    (hroom : nr.room = roomId) (hs : nr.startTime = s) (he : nr.endTime = e) :
    resCompatB b nr = true := by
  subst hroom hs he
  have hmatch : conflictMatches nr.room nr.startTime nr.endTime none b = false := by
    rw [checkAvailability] at hav
    simp only [Bool.not_eq_true', List.any_eq_false] at hav
    exact Bool.eq_false_iff.mpr (hav b hb)
  rw [resCompatB]
  by_cases h1 : b.room = nr.room
  case neg =>
    have hbe : (b.room == nr.room) = false := by simp [h1]
    simp [hbe]
  case pos =>
    cases h2 : isActiveStatus b.status
    case false => simp [h2]
    case true =>
      cases h3 : isActiveStatus nr.status
      case false => simp [h3]
      case true =>
        have hor : overlapOr b.startTime b.endTime nr.startTime nr.endTime = false := by
          simp [conflictMatches, h1, h2] at hmatch
          exact hmatch
        have hov := overlapOr_false_imp_no_overlap b.startTime b.endTime
          nr.startTime nr.endTime hor
        simp [hov]

theorem createReservation_store_cases (rooms : List Room) (st : Store) (now : Int)
    (userId : Nat) (req : CreateRequest) :
    (createReservation rooms st now userId req).2 = st ∨
    (checkAvailability st.reservations req.room req.startTime req.endTime none = true ∧
      (createReservation rooms st now userId req).2 =
        ⟨st.reservations ++ [⟨st.nextId, userId, req.room, req.startTime, req.endTime,
          req.attendees, req.purposeLen, RStatus.confirmed⟩], st.nextId + 1⟩) := by
  cases hv : createRequestValid now req
  case false => left; simp [createReservation, hv]
  case true =>
    cases hm : findRoom rooms req.room
    case none => left; simp [createReservation, hv, hm]
    case some rm =>
      cases ha : rm.isActive
      case false => left; simp [createReservation, hv, hm, ha]
      case true =>
        by_cases hcap : req.attendees > rm.capacity
        case pos => left; simp [createReservation, hv, hm, ha, hcap]
        case neg =>
          cases hav : checkAvailability st.reservations req.room req.startTime req.endTime none
          case false => left; simp [createReservation, hv, hm, ha, hcap, hav]
          case true =>
            by_cases hds : req.endTime - req.startTime < 1800000
            case pos => left; simp [createReservation, hv, hm, ha, hcap, hav, hds]
            case neg =>
              by_cases hdl : req.endTime - req.startTime > 28800000
              case pos => left; simp [createReservation, hv, hm, ha, hcap, hav, hds, hdl]
              case neg =>
                right
                exact ⟨rfl, by simp [createReservation, hv, hm, ha, hcap, hav, hds, hdl]⟩

theorem cancelReservation_store_cases (stq : Store) (now : Int) (actor : Actor)
    (rid : Nat) :
    (cancelReservation stq now actor rid).2 = stq ∨
    (cancelReservation stq now actor rid).2 =
      { stq with reservations := setStatusFirst stq.reservations rid RStatus.cancelled } := by
  cases hf : findReservation stq.reservations rid
  case none => left; simp [cancelReservation, hf]
  case some r =>
    simp only [cancelReservation, hf]
    split
    · left; rfl
    · split
      · left; rfl
      · right; rfl

theorem adminCancelReservation_store_cases (stq : Store) (rid : Nat) :
    (adminCancelReservation stq rid).2 = stq ∨
    (adminCancelReservation stq rid).2 =
      { stq with reservations := setStatusFirst stq.reservations rid RStatus.cancelled } := by
  cases hf : findReservation stq.reservations rid
  case none => left; simp [adminCancelReservation, hf]
  case some r => right; simp [adminCancelReservation, hf]

theorem updateReservationStatus_store_cases (stq : Store) (rid : Nat) (s : String) :
    (updateReservationStatus stq rid s).2 = stq ∨
    (∃ stt, parseStatus s = some stt ∧
      (updateReservationStatus stq rid s).2 =
        { stq with reservations := setStatusFirst stq.reservations rid stt }) := by
  cases hp : parseStatus s
  case none => left; simp [updateReservationStatus, hp]
  case some stt =>
    cases hf : findReservation stq.reservations rid
    case none => left; simp [updateReservationStatus, hp, hf]
    case some r => right; exact ⟨stt, rfl, by simp [updateReservationStatus, hp, hf]⟩

theorem opSafe_update_inactive (rid : Nat) (s : String) (stt : RStatus)
    (hsafe : opSafe (Op.updateStatus rid s) = true)
    (hp : parseStatus s = some stt) :
    isActiveStatus stt = false := by
  rw [opSafe, hp] at hsafe
  simp at hsafe
  cases stt <;> simp_all [isActiveStatus]

theorem applyOp_preserves_noOverlap (rooms : List Room) (st : Store) (op : Op)
    (hsafe : opSafe op = true) (h : noOverlapB st.reservations = true) :
    noOverlapB (applyOp rooms st op).reservations = true := by
  cases op with
  | create now userId req =>
    simp only [applyOp]
    rcases createReservation_store_cases rooms st now userId req with hst | ⟨hav, hst⟩
    · rw [hst]; exact h
    · rw [hst]
      exact noOverlapB_append_one st.reservations _ h
        (fun b hb => resCompatB_of_checkAvailability st.reservations req.room
          req.startTime req.endTime hav b hb _ rfl rfl rfl)
  | cancel now actor rid =>
    simp only [applyOp]
    rcases cancelReservation_store_cases st now actor rid with hst | hst
    · rw [hst]; exact h
    · rw [hst]
      exact noOverlapB_setStatusFirst st.reservations rid RStatus.cancelled (by rfl) h
  | updateStatus rid s =>
    simp only [applyOp]
    rcases updateReservationStatus_store_cases st rid s with hst | ⟨stt, hp, hst⟩
    · rw [hst]; exact h
    · rw [hst]
      exact noOverlapB_setStatusFirst st.reservations rid stt
        (opSafe_update_inactive rid s stt hsafe hp) h
  | adminCancel rid =>
    simp only [applyOp]
    rcases adminCancelReservation_store_cases st rid with hst | hst
    · rw [hst]; exact h
    · rw [hst]
      exact noOverlapB_setStatusFirst st.reservations rid RStatus.cancelled (by rfl) h

theorem foldl_preserves_noOverlap (rooms : List Room) (ops : List Op) :
    ∀ st, noOverlapB st.reservations = true → (∀ op ∈ ops, opSafe op = true) →
      noOverlapB (ops.foldl (applyOp rooms) st).reservations = true := by
  induction ops with
  | nil => intro st h _; exact h
  | cons op rest ih =>
    intro st h hsafe
    rw [List.foldl_cons]
    exact ih (applyOp rooms st op)
      (applyOp_preserves_noOverlap rooms st op (hsafe op (by simp)) h)
      (fun o ho => hsafe o (by simp [ho]))

/-- C1 (amended): starting from the empty store, the no-overlap invariant —
no two reservations on the same room with status in `{pending, confirmed}`
have overlapping intervals — is preserved by every sequence of
`createReservation`, `cancelReservation`, `adminCancelReservation` and
`updateReservationStatus` calls, provided every `updateReservationStatus`
call sets a non-active status (`cancelled` or `completed`).
`updateReservationStatus` performs no availability check, so a call that
re-activates a cancelled reservation can violate the invariant. -/
theorem noOverlap_invariant (rooms : List Room) (ops : List Op)
    (hsafe : ∀ op ∈ ops, opSafe op = true) :
    noOverlapB (runOps rooms ops).reservations = true :=
  foldl_preserves_noOverlap rooms ops emptyStore rfl hsafe

/-- C1 counterexample: after the `cexOps` trace of core operations starting
from the empty store, two 'confirmed' reservations on room 1 hold the same
interval `[3600000, 5400000)` — the no-overlap invariant does not survive
arbitrary sequences that include the unchecked admin status override. -/
theorem noOverlap_invariant_cex :
    noOverlapB (runOps [⟨1, 10, true⟩] cexOps).reservations = false := by
  decide

theorem noOverlap_invariant_witness :
    (∀ op ∈ safeOps, opSafe op = true) ∧
    noOverlapB (runOps [⟨1, 10, true⟩] safeOps).reservations = true :=
  ⟨by decide, noOverlap_invariant [⟨1, 10, true⟩] safeOps (by decide)⟩
